import Mathlib

/-!
Shallow embedding of the timezone-resolution core of the FlightReservationSystem
repository: `app/timezone_manager.py` (TimezoneManager) and
`app/amadeus_client.py` (AmadeusClient).

External effects (the Amadeus search HTTP call, the Claude completion call,
`json.loads`, the clock) are passed in as explicit arguments: an `Except`
value for a network call that may raise, and a `String → Option _` oracle for
`json.loads` (`none` models a `json.JSONDecodeError`).  Mutable object state
(`self.data`, the backing JSON file, the cached OAuth token) is threaded
explicitly as state values.
-/

/-- Python truthiness of an optional string: `None` and `""` are falsy,
any other string is truthy. -/
def strTruthy : Option String → Bool
  | none => false
  | some s => s ≠ ""

/-- One cached airport record, as built at
timezone_manager.py lines 91-100 (amadeus) and 151-160 (claude).
Optional fields model JSON `null` / missing keys. -/
structure TimezoneRecord where
  iata_code : Option String
  city_name : Option String
  city_code : Option String
  country_code : Option String
  timezone_offset : Option String
  timezone_name : Option String
  source : String
  updated_at : String
deriving Repr, DecidableEq

/-- The JSON store held in `self.data`: version tag, last-updated stamp and the
`airports` mapping (modelled as an association list, first match wins, like a
Python dict keyed by exact strings). -/
structure Store where
  version : String
  last_updated : String
  airports : List (String × TimezoneRecord)
deriving Repr, DecidableEq

/-- Python `airports[iata_code]` / `iata_code in airports`: exact string-keyed
dict lookup. -/
def lookupAirport : List (String × TimezoneRecord) → String → Option TimezoneRecord
  | [], _ => none
  | p :: rest, k => if p.1 = k then some p.2 else lookupAirport rest k

/-- Python `airports[iata_code] = info`: overwrite in place if the key exists,
otherwise append. -/
def insertAirport : List (String × TimezoneRecord) → String → TimezoneRecord →
    List (String × TimezoneRecord)
  | [], k, r => [(k, r)]
  | p :: rest, k, r =>
      if p.1 = k then (k, r) :: rest else p :: insertAirport rest k r

/-- In-memory state of a TimezoneManager plus its backing file.
`file = some s` means the file holds the serialization of store `s`;
`none` means the file does not exist. -/
structure TMState where
  data : Store
  file : Option Store
deriving Repr, DecidableEq

/-- `TimezoneManager._save_data` (lines 32-37): stamp `last_updated` with the
current time, then rewrite the whole store to the backing file. -/
def saveData (st : TMState) (now : String) : TMState :=
  let d : Store := { st.data with last_updated := now }
  { data := d, file := some d }

/-- `TimezoneManager._load_data` (lines 21-30): if the file exists, parse it
(`parseStore` is the `json.load` oracle; `none` = JSONDecodeError, which the
code does not catch, so loading raises); otherwise return a fresh empty store. -/
def loadData (fileContents : Option String) (parseStore : String → Option Store)
    (now : String) : Except String Store :=
  match fileContents with
  | some c =>
      match parseStore c with
      | some s => Except.ok s
      | none => Except.error "JSONDecodeError"
  | none => Except.ok { version := "1.0.0", last_updated := now, airports := [] }

/-- The fields of the first location returned by the Amadeus
Airport City Search API that `_fetch_from_amadeus` reads (address fields
flattened). -/
structure LocationInfo where
  iataCode : Option String
  cityName : Option String
  cityCode : Option String
  countryCode : Option String
  timeZoneOffset : Option String
deriving Repr, DecidableEq

/-- The record `_fetch_from_amadeus` builds at lines 91-100. -/
def amadeusRecord (loc : LocationInfo) (now : String) : TimezoneRecord :=
  { iata_code := loc.iataCode
    city_name := loc.cityName
    city_code := loc.cityCode
    country_code := loc.countryCode
    timezone_offset := loc.timeZoneOffset
    timezone_name := none
    source := "amadeus"
    updated_at := now }

/-- `TimezoneManager._fetch_from_amadeus` (lines 81-110).
`searchOutcome` is the result of `amadeus_client.search_airport`:
`Except.error` models an exception raised by the call, `Except.ok none` the
"no location found" result.  A record is stored (and the file rewritten) only
when the location carries a truthy `timeZoneOffset`. -/
def fetchFromAmadeus (st : TMState) (now iata : String)
    (searchOutcome : Except String (Option LocationInfo)) :
    Except String (Option String) × TMState :=
  match searchOutcome with
  | Except.error e => (Except.error e, st)
  | Except.ok none => (Except.ok none, st)
  | Except.ok (some loc) =>
      if strTruthy loc.timeZoneOffset then
        let st1 : TMState :=
          { st with data :=
              { st.data with airports := insertAirport st.data.airports iata (amadeusRecord loc now) } }
        (Except.ok loc.timeZoneOffset, saveData st1 now)
      else
        (Except.ok none, st)

/-- The five keys `_fetch_from_claude` reads out of the parsed JSON reply. -/
structure ClaudeResult where
  iata_code : Option String
  city_name : Option String
  country_code : Option String
  timezone_offset : Option String
  timezone_name : Option String
deriving Repr, DecidableEq

/-- The record `_fetch_from_claude` builds at lines 151-160: the parsed fields
verbatim, `city_code` always null, tagged `source = "claude"`. -/
def claudeRecord (r : ClaudeResult) (now : String) : TimezoneRecord :=
  { iata_code := r.iata_code
    city_name := r.city_name
    city_code := none
    country_code := r.country_code
    timezone_offset := r.timezone_offset
    timezone_name := r.timezone_name
    source := "claude"
    updated_at := now }

/-- Whether the first list of characters begins the second
(Python `str.startswith` on the underlying characters). -/
def beginsWith : List Char → List Char → Bool
  | [], _ => true
  | _ :: _, [] => false
  | a :: as, b :: bs => a = b && beginsWith as bs

/-- Python splitting of a text on the newline character, as structural
recursion over the characters: every newline separates, so `""` gives `[""]`
and a trailing newline yields a trailing `""`. -/
def splitLinesAux : List Char → List Char → List String
  | [], acc => [String.mk acc.reverse]
  | c :: cs, acc =>
      if c = '\n' then String.mk acc.reverse :: splitLinesAux cs []
      else splitLinesAux cs (c :: acc)

/-- Python splitting of a text on the newline character. -/
def splitLines (s : String) : List String := splitLinesAux s.data []

/-- Python joining of lines with the newline character. -/
def joinLines : List String → String
  | [] => ""
  | [s] => s
  | s :: rest => s ++ "\n" ++ joinLines rest

/-- An ASCII whitespace character, for `str.strip()`. -/
def isWS (c : Char) : Bool := c = ' ' || c = '\n' || c = '\t' || c = '\r'

/-- Python `text.strip()`: drop whitespace from both ends. -/
def pyStrip (s : String) : String :=
  String.mk (((s.data.dropWhile isWS).reverse.dropWhile isWS).reverse)

/-- The fenced-code-block removal at lines 144-146: if the text starts with
three backticks, split on newlines and, only when there are more than two
lines, drop the first and last line; otherwise the text is kept unchanged. -/
def stripCodeBlock (t : String) : String :=
  if beginsWith "```".data t.data then
    let lines := splitLines t
    if lines.length > 2 then joinLines ((lines.drop 1).dropLast)
    else t
  else t

/-- `TimezoneManager._fetch_from_claude` (lines 112-172).
`apiKey` is `os.getenv("ANTHROPIC_API_KEY")`; a falsy key short-circuits to
`None` with no call made.  `claudeOutcome` is the text of the model reply
(`Except.error` models an exception raised by the API call).  `parseJson` is
the `json.loads` oracle; `none` models `json.JSONDecodeError`, which the code
catches and converts to `None`.  On a parse success the parsed record is
stored unconditionally — its `timezone_offset` is not checked. -/
def fetchFromClaude (st : TMState) (now iata : String) (apiKey : Option String)
    (claudeOutcome : Except String String)
    (parseJson : String → Option ClaudeResult) :
    Except String (Option String) × TMState :=
  if strTruthy apiKey then
    match claudeOutcome with
    | Except.error e => (Except.error e, st)
    | Except.ok raw =>
        match parseJson (stripCodeBlock (pyStrip raw)) with
        | none => (Except.ok none, st)
        | some r =>
            let st1 : TMState :=
              { st with data :=
                  { st.data with airports := insertAirport st.data.airports iata (claudeRecord r now) } }
            (Except.ok r.timezone_offset, saveData st1 now)
  else (Except.ok none, st)

/-- The claude-tier block of `get_timezone_offset` (lines 71-77): call
`_fetch_from_claude`, catch any exception (`except Exception` downgrades it to
`None`), and fall through to `None` when the returned offset is falsy. -/
def claudeTier (st2 : TMState) (now iata : String) (apiKey : Option String)
    (claudeOutcome : Except String String)
    (parseJson : String → Option ClaudeResult) : Option String × TMState :=
  let c := fetchFromClaude st2 now iata apiKey claudeOutcome parseJson
  match c.1 with
  | Except.error _ => (none, c.2)
  | Except.ok o => if strTruthy o then (o, c.2) else (none, c.2)

/-- `TimezoneManager.get_timezone_offset` (lines 39-79), the three-tier
resolver: cache check, then the amadeus tier inside try/except, then the
claude tier inside try/except, else `None`.  An `Except.error` from a tier is
caught (`except Exception`) and downgraded to trying the next tier; a falsy
returned offset likewise falls through. -/
def get_timezone_offset (st : TMState) (iata : String)
    (searchOutcome : Except String (Option LocationInfo))
    (apiKey : Option String) (claudeOutcome : Except String String)
    (parseJson : String → Option ClaudeResult) (now : String) :
    Option String × TMState :=
  match lookupAirport st.data.airports iata with
  | some r => (r.timezone_offset, st)
  | none =>
      let a := fetchFromAmadeus st now iata searchOutcome
      match a.1 with
      | Except.error _ => claudeTier a.2 now iata apiKey claudeOutcome parseJson
      | Except.ok o =>
          if strTruthy o then (o, a.2)
          else claudeTier a.2 now iata apiKey claudeOutcome parseJson

/-- `TimezoneManager.get_cached_timezone` (lines 174-178). -/
def get_cached_timezone (st : TMState) (iata : String) : Option String :=
  match lookupAirport st.data.airports iata with
  | some r => r.timezone_offset
  | none => none

/-! ## AmadeusClient credential state -/

/-- Mutable fields of an `AmadeusClient` instance (amadeus_client.py 13-18). -/
structure AmadeusState where
  api_key : Option String
  api_secret : Option String
  token : Option String
  token_expires_at : Option Int
deriving Repr, DecidableEq

/-- `AmadeusClient.__init__`: reads the two environment variables with no
validation; token cache starts empty. -/
def initAmadeusClient (key secret : Option String) : AmadeusState :=
  { api_key := key, api_secret := secret, token := none, token_expires_at := none }

/-- JSON body of a successful token-exchange response: `access_token` plus an
optional `expires_in` (seconds). -/
structure TokenResponse where
  access_token : String
  expires_in : Option Int
deriving Repr, DecidableEq

/-- The cached-token freshness test at amadeus_client.py line 22:
`self.token and self.token_expires_at and datetime.now() < self.token_expires_at`.
Time is modelled as an integer number of seconds. -/
def tokenValid (st : AmadeusState) (now : Int) : Bool :=
  strTruthy st.token && st.token_expires_at.isSome &&
    (match st.token_expires_at with
     | some e => decide (now < e)
     | none => false)

/-- `AmadeusClient._get_token` (lines 20-42).  `exchange` is the outcome of the
POST to the token endpoint (`Except.error` models a transport error or
`raise_for_status`).  The third component counts token-exchange network
requests performed by this call (0 on a cache hit, 1 otherwise). -/
def getToken (st : AmadeusState) (now : Int)
    (exchange : Except String TokenResponse) :
    Except String String × AmadeusState × Nat :=
  if tokenValid st now then (Except.ok (st.token.getD ""), st, 0)
  else
    match exchange with
    | Except.error e => (Except.error e, st, 1)
    | Except.ok r =>
        let expiresIn := r.expires_in.getD 1799
        let st1 : AmadeusState :=
          { st with token := some r.access_token,
                    token_expires_at := some (now + (expiresIn - 60)) }
        (Except.ok r.access_token, st1, 1)

/-! ## Concrete fixtures used by witnesses and counterexamples -/

/-- A record for NRT as the amadeus tier would store it. -/
def recNRT : TimezoneRecord :=
  { iata_code := some "NRT", city_name := some "Tokyo", city_code := some "TYO",
    country_code := some "JP", timezone_offset := some "+09:00",
    timezone_name := none, source := "amadeus", updated_at := "t0" }

/-- A store holding exactly the NRT record under the uppercase key. -/
def storeNRT : Store :=
  { version := "1.0.0", last_updated := "t0", airports := [("NRT", recNRT)] }

/-- A manager state whose cache holds NRT, file in sync. -/
def stNRT : TMState := { data := storeNRT, file := some storeNRT }

/-- A manager state with an empty cache and no backing file. -/
def st0 : TMState :=
  { data := { version := "1.0.0", last_updated := "t0", airports := [] }, file := none }

/-- A parsed claude reply that carries no `timezone_offset` (a JSON object
such as one containing only an `iata_code` key parses to this). -/
def crEmpty : ClaudeResult :=
  { iata_code := some "AAA", city_name := none, country_code := none,
    timezone_offset := none, timezone_name := none }

/-- A `json.loads` oracle whose parse succeeds but yields no offset. -/
def parseNoOffset : String → Option ClaudeResult := fun _ => some crEmpty

/-- An amadeus location carrying a valid offset. -/
def locTokyo : LocationInfo :=
  { iataCode := some "AAA", cityName := some "Tokyo", cityCode := some "TYO",
    countryCode := some "JP", timeZoneOffset := some "+09:00" }

/-! ## Helper lemmas -/

/-- Lookup after a dict insert: the inserted key maps to the new record and
every other key is untouched. -/
theorem lookupAirport_insertAirport (l : List (String × TimezoneRecord))
    (k q : String) (r : TimezoneRecord) :
    lookupAirport (insertAirport l k r) q =
      if k = q then some r else lookupAirport l q := by
  induction l with
  | nil => simp [insertAirport, lookupAirport]
  | cons p rest ih =>
      simp only [insertAirport]
      by_cases hp : p.1 = k
      · simp only [if_pos hp, lookupAirport]
        by_cases hq : k = q
        · simp [hq]
        · have hpq : ¬ p.1 = q := fun h => hq (hp ▸ h)
          simp [hq, hpq, lookupAirport]
      · simp only [if_neg hp, lookupAirport, ih]
        by_cases hq : p.1 = q
        · have hk : ¬ k = q := fun h => hp (by rw [hq, h])
          simp [hq, hk]
        · simp [hq]

/-- A key equal to none of the stored keys is not found. -/
theorem lookupAirport_eq_none (l : List (String × TimezoneRecord)) (q : String)
    (h : ∀ p ∈ l, p.1 ≠ q) :
    lookupAirport l q = none := by
  induction l with
  | nil => rfl
  | cons p rest ih =>
      have hp : ¬ p.1 = q := h p (by simp)
      simp only [lookupAirport, if_neg hp]
      exact ih fun x hx => h x (by simp [hx])

/-! ## Claims -/

/-- Claim C1, counterexample: the claim says no operation ever inserts a
record whose `timezone_offset` is absent or empty.  But when the claude reply
parses to an object without a `timezone_offset` (here via `parseNoOffset`),
`_fetch_from_claude` returns `None` to its caller yet still stores the
record — whose `timezone_offset` is absent — under the queried code. -/
theorem claude_stores_offsetless_record :
    (fetchFromClaude st0 "t1" "AAA" (some "k") (Except.ok "resp") parseNoOffset).1
        = Except.ok none ∧
    lookupAirport
        ((fetchFromClaude st0 "t1" "AAA" (some "k") (Except.ok "resp") parseNoOffset).2).data.airports
        "AAA" = some (claudeRecord crEmpty "t1") ∧
    (claudeRecord crEmpty "t1").timezone_offset = none :=
  ⟨rfl, rfl, rfl⟩

/-- Claim C1, amended: every record the amadeus tier stores has a truthy
(non-empty, present) `timezone_offset`, and claude-tier lookups that fail
(no API key, API exception, JSON parse error) leave the store unchanged; but
a claude-tier parse success stores the parsed record verbatim under the
queried code, with no check that its `timezone_offset` is present. -/
theorem tier_store_validity (st : TMState) (now iata k raw e : String)
    (a : Except String (Option LocationInfo)) (key : Option String)
    (co : Except String String) (p : String → Option ClaudeResult) (r : ClaudeResult) :
    (∀ tr, lookupAirport ((fetchFromAmadeus st now iata a).2).data.airports k = some tr →
        lookupAirport st.data.airports k = some tr ∨ strTruthy tr.timezone_offset = true) ∧
    (strTruthy key = false →
        fetchFromClaude st now iata key co p = (Except.ok none, st)) ∧
    ((fetchFromClaude st now iata key (Except.error e) p).2 = st) ∧
    (p (stripCodeBlock (pyStrip raw)) = none →
        fetchFromClaude st now iata key (Except.ok raw) p = (Except.ok none, st)) ∧
    (strTruthy key = true → p (stripCodeBlock (pyStrip raw)) = some r →
        (fetchFromClaude st now iata key (Except.ok raw) p).1 = Except.ok r.timezone_offset ∧
        lookupAirport
            ((fetchFromClaude st now iata key (Except.ok raw) p).2).data.airports iata
          = some (claudeRecord r now)) := by
  refine ⟨?_, ?_, ?_, ?_, ?_⟩
  · intro tr htr
    rcases a with ea | o
    · exact Or.inl htr
    · rcases o with _ | loc
      · exact Or.inl htr
      · by_cases hoff : strTruthy loc.timeZoneOffset
        · simp only [fetchFromAmadeus, hoff, if_pos, saveData] at htr
          rw [lookupAirport_insertAirport] at htr
          by_cases hik : iata = k
          · rw [if_pos hik] at htr
            right
            rw [← Option.some.inj htr]
            simpa [amadeusRecord] using hoff
          · rw [if_neg hik] at htr
            exact Or.inl htr
        · simp only [fetchFromAmadeus, hoff] at htr
          exact Or.inl htr
  · intro hk; simp [fetchFromClaude, hk]
  · by_cases hk : strTruthy key <;> simp [fetchFromClaude, hk]
  · intro hp; by_cases hk : strTruthy key <;> simp [fetchFromClaude, hk, hp]
  · intro hk hp
    simp [fetchFromClaude, hk, hp, saveData, lookupAirport_insertAirport]

/-- Claim C1, witness: a claude parse success with a missing offset, applied
at a concrete state, really does store the parsed record. -/
theorem tier_store_validity_witness :
    (fetchFromClaude st0 "t1" "BBB" (some "k") (Except.ok "resp") parseNoOffset).1
      = Except.ok crEmpty.timezone_offset ∧
    lookupAirport
        ((fetchFromClaude st0 "t1" "BBB" (some "k") (Except.ok "resp") parseNoOffset).2).data.airports
        "BBB" = some (claudeRecord crEmpty "t1") :=
  (tier_store_validity st0 "t1" "BBB" "BBB" "resp" "e" (Except.ok none) (some "k")
      (Except.ok "resp") parseNoOffset crEmpty).2.2.2.2 (by decide) rfl

/-- Claim C2, counterexample: the claim says that whenever all three tiers
fail to produce a non-empty offset, no cache entry is created and a later
resolve re-attempts tiers 2 and 3.  Here the amadeus tier finds nothing and
the claude reply parses to an object without an offset: `resolve` returns
absent, yet an entry for the code IS created, and a subsequent resolve
cache-hits that entry (returning absent from the cache even though the
amadeus tier would now answer `+09:00`) — absence has effectively been
cached. -/
theorem absence_cached_counterexample :
    (get_timezone_offset st0 "AAA" (Except.ok none) (some "k") (Except.ok "resp")
        parseNoOffset "t1").1 = none ∧
    lookupAirport
        ((get_timezone_offset st0 "AAA" (Except.ok none) (some "k") (Except.ok "resp")
            parseNoOffset "t1").2).data.airports "AAA" = some (claudeRecord crEmpty "t1") ∧
    get_timezone_offset
        ((get_timezone_offset st0 "AAA" (Except.ok none) (some "k") (Except.ok "resp")
            parseNoOffset "t1").2) "AAA"
        (Except.ok (some locTokyo)) (some "k") (Except.ok "resp") parseNoOffset "t2"
      = (none,
          (get_timezone_offset st0 "AAA" (Except.ok none) (some "k") (Except.ok "resp")
              parseNoOffset "t1").2) :=
  ⟨rfl, rfl, rfl⟩

/-- Claim C2, amended: when the code is not cached, the amadeus tier fails to
produce a non-empty offset (exception, no location, or falsy offset) and the
claude tier fails before a successful JSON parse (no API key, exception, or
parse error), `resolve` returns absent and the whole state — store and
backing file — is unchanged, so a subsequent resolve re-attempts tiers 2 and
3 from the same state.  (When the claude tier parses an offsetless object the
conclusion fails: see the counterexample.) -/
theorem all_tiers_fail_no_entry (st : TMState) (iata now : String)
    (a : Except String (Option LocationInfo)) (key : Option String)
    (co : Except String String) (p : String → Option ClaudeResult)
    (hmiss : lookupAirport st.data.airports iata = none)
    (hA : (∃ e, a = Except.error e) ∨ a = Except.ok none ∨
          ∃ loc, a = Except.ok (some loc) ∧ strTruthy loc.timeZoneOffset = false)
    (hC : strTruthy key = false ∨ (∃ e, co = Except.error e) ∨
          ∃ raw, co = Except.ok raw ∧ p (stripCodeBlock (pyStrip raw)) = none) :
    get_timezone_offset st iata a key co p now = (none, st) := by
  have hclaude : ∀ s2 : TMState, claudeTier s2 now iata key co p = (none, s2) := by
    intro s2
    rcases hC with hk | ⟨e, rfl⟩ | ⟨raw, rfl, hp⟩
    · simp [claudeTier, fetchFromClaude, hk, show strTruthy none = false from rfl]
    · by_cases hk : strTruthy key <;>
        simp [claudeTier, fetchFromClaude, hk, show strTruthy none = false from rfl]
    · by_cases hk : strTruthy key <;>
        simp [claudeTier, fetchFromClaude, hk, hp, show strTruthy none = false from rfl]
  rcases hA with ⟨e, rfl⟩ | rfl | ⟨loc, rfl, hoff⟩
  · simp [get_timezone_offset, hmiss, fetchFromAmadeus, hclaude]
  · simp [get_timezone_offset, hmiss, fetchFromAmadeus, hclaude,
      show strTruthy none = false from rfl]
  · simp [get_timezone_offset, hmiss, fetchFromAmadeus, hclaude, hoff,
      show strTruthy none = false from rfl]

/-- Claim C2, witness: with an empty cache, no amadeus match and a claude
transport failure, resolve returns absent and leaves the state untouched. -/
theorem all_tiers_fail_no_entry_witness :
    get_timezone_offset st0 "AAA" (Except.ok none) none (Except.error "down")
      (fun _ => none) "t1" = (none, st0) :=
  all_tiers_fail_no_entry st0 "AAA" "t1" (Except.ok none) none (Except.error "down")
    (fun _ => none) rfl (Or.inr (Or.inl rfl)) (Or.inl rfl)

/-- Claim C3: for a code already in the store, `resolve` returns that entry's
`timezone_offset` and leaves the state (store and backing file) unchanged.
The conclusion holds for every value of the amadeus outcome, the API key, the
claude outcome and the parse oracle, so the result does not depend on either
source adapter — neither is invoked. -/
theorem cache_hit_no_network (st : TMState) (iata : String) (r : TimezoneRecord)
    (h : lookupAirport st.data.airports iata = some r)
    (a : Except String (Option LocationInfo)) (key : Option String)
    (co : Except String String) (p : String → Option ClaudeResult) (now : String) :
    get_timezone_offset st iata a key co p now = (r.timezone_offset, st) := by
  simp [get_timezone_offset, h]

/-- Claim C3, witness: a cache hit on NRT returns the stored offset even when
both source adapters would raise. -/
theorem cache_hit_no_network_witness :
    get_timezone_offset stNRT "NRT" (Except.error "x") none (Except.error "y")
      (fun _ => none) "t9" = (some "+09:00", stNRT) :=
  cache_hit_no_network stNRT "NRT" recNRT rfl _ _ _ _ _

/-- Claim C4, counterexample: the claim says cache lookup is case-normalized
on the key, so resolving "nrt" hits a record stored under "NRT".  It does
not: `get_cached_timezone` misses, and a full `resolve` of "nrt" (with both
source tiers failing) returns absent instead of the stored `+09:00`. -/
theorem case_sensitive_lookup_counterexample :
    get_cached_timezone stNRT "NRT" = some "+09:00" ∧
    get_cached_timezone stNRT "nrt" = none ∧
    (get_timezone_offset stNRT "nrt" (Except.error "x") none (Except.error "y")
        (fun _ => none) "t1").1 = none :=
  ⟨rfl, rfl, rfl⟩

/-- Claim C4, amended: cache lookup is case-sensitive, keyed on the exact
string passed in with no uppercase normalization — any query string that
differs from every stored key (including a lowercase spelling of a stored
uppercase key) misses the cache. -/
theorem cache_lookup_exact_key (st : TMState) (q : String)
    (h : ∀ p ∈ st.data.airports, p.1 ≠ q) :
    get_cached_timezone st q = none := by
  simp [get_cached_timezone, lookupAirport_eq_none _ _ h]

/-- Claim C4, witness: "nrt" differs from the stored key "NRT", so it
misses. -/
theorem cache_lookup_exact_key_witness :
    get_cached_timezone stNRT "nrt" = none := by
  have h : ∀ p ∈ stNRT.data.airports, p.1 ≠ "nrt" := by decide
  exact cache_lookup_exact_key stNRT "nrt" h

/-- Claim C5: `_get_token` returns a cached, still-fresh token unchanged with
no exchange (count 0); on a stale or absent token it performs one exchange,
stores the token and sets the expiry to `now + reported_ttl - 60` seconds
with `reported_ttl` defaulting to 1799 when `expires_in` is absent (the
`getD 1799`); and after one exchange, a second call within the validity
window performs no further exchange and returns the same token, so two
sequential lookups in the window cost exactly one exchange. -/
theorem get_token_contract (st : AmadeusState) (now now2 : Int)
    (ex ex2 : Except String TokenResponse) (r : TokenResponse) :
    (tokenValid st now = true →
        getToken st now ex = (Except.ok (st.token.getD ""), st, 0)) ∧
    (tokenValid st now = false →
        getToken st now (Except.ok r) =
          (Except.ok r.access_token,
            { st with token := some r.access_token,
                      token_expires_at := some (now + (r.expires_in.getD 1799 - 60)) }, 1)) ∧
    (tokenValid st now = false → r.access_token ≠ "" →
      now2 < now + (r.expires_in.getD 1799 - 60) →
        getToken (getToken st now (Except.ok r)).2.1 now2 ex2 =
          (Except.ok r.access_token, (getToken st now (Except.ok r)).2.1, 0)) := by
  refine ⟨?_, ?_, ?_⟩
  · intro h; simp [getToken, h]
  · intro h; simp [getToken, h]
  · intro h hr hlt
    have e1 : getToken st now (Except.ok r) =
        (Except.ok r.access_token,
          { st with token := some r.access_token,
                    token_expires_at := some (now + (r.expires_in.getD 1799 - 60)) }, 1) := by
      simp [getToken, h]
    rw [e1]
    have hv : tokenValid
        { st with token := some r.access_token,
                  token_expires_at := some (now + (r.expires_in.getD 1799 - 60)) } now2 = true := by
      simp [tokenValid, strTruthy, hr, hlt]
    simp [getToken, hv]

/-- Claim C5, witness: a fresh client with no `expires_in` in the reply gets
expiry `0 + 1799 - 60 = 1739`. -/
theorem get_token_contract_witness :
    tokenValid (initAmadeusClient none none) 0 = false ∧
    getToken (initAmadeusClient none none) 0
        (Except.ok { access_token := "tok", expires_in := none }) =
      (Except.ok "tok",
        { api_key := none, api_secret := none, token := some "tok",
          token_expires_at := some 1739 }, 1) := by
  refine ⟨by decide, ?_⟩
  exact (get_token_contract (initAmadeusClient none none) 0 0
      (Except.ok { access_token := "tok", expires_in := none })
      (Except.ok { access_token := "tok", expires_in := none })
      { access_token := "tok", expires_in := none }).2.1 (by decide)

/-- Claim C6: `resolve` never surfaces an error — its codomain is an optional
offset plus a state, and a tier failure is indistinguishable from that tier
finding nothing: an amadeus-tier exception gives exactly the result of an
empty amadeus answer, and a claude-tier exception gives exactly the result of
a claude reply that fails to parse.  Every tier-local failure is downgraded
to trying the next tier, and the only externally visible outcomes are an
offset string or absent. -/
theorem resolver_error_downgrade (st : TMState) (iata e e2 t : String)
    (a : Except String (Option LocationInfo)) (key : Option String)
    (co : Except String String) (p : String → Option ClaudeResult) (now : String) :
    get_timezone_offset st iata (Except.error e) key co p now =
      get_timezone_offset st iata (Except.ok none) key co p now ∧
    get_timezone_offset st iata a key (Except.error e2) p now =
      get_timezone_offset st iata a key (Except.ok t) (fun _ => none) now := by
  constructor
  · simp [get_timezone_offset, fetchFromAmadeus, strTruthy]
  · have hc : ∀ s2 : TMState,
        claudeTier s2 now iata key (Except.error e2) p =
          claudeTier s2 now iata key (Except.ok t) (fun _ => none) := by
      intro s2
      by_cases hk : strTruthy key <;>
        simp [claudeTier, fetchFromClaude, hk, show strTruthy none = false from rfl]
    simp only [get_timezone_offset, hc]

/-- Claim C7, counterexample: the claim says that for every response
beginning with a triple-backtick marker the first and last lines are dropped
before parsing.  The two-line response consisting of an opening and a closing
fence is a counterexample: dropping its first and last lines would leave the
empty string, but the code (guarded by `len(lines) > 2`) passes the text
through unchanged. -/
theorem fence_not_stripped_counterexample :
    beginsWith "```".data ("```\n```").data = true ∧
    stripCodeBlock "```\n```" = "```\n```" ∧
    joinLines (((splitLines "```\n```").drop 1).dropLast) = "" :=
  ⟨rfl, rfl, rfl⟩

/-- Claim C7, amended: if the response begins with a triple-backtick marker
AND has more than two lines, the first and last lines are dropped before the
structured parse; with two lines or fewer the text is parsed unchanged, as it
is when no marker is present.  And whenever the (possibly stripped) remainder
fails to parse as JSON, `_fetch_from_claude` returns absent with the state
unchanged rather than raising. -/
theorem fence_strip_contract (t raw now iata : String) (st : TMState)
    (key : Option String) (p : String → Option ClaudeResult) :
    (beginsWith "```".data t.data = true → 2 < (splitLines t).length →
        stripCodeBlock t = joinLines (((splitLines t).drop 1).dropLast)) ∧
    (beginsWith "```".data t.data = true → (splitLines t).length ≤ 2 →
        stripCodeBlock t = t) ∧
    (beginsWith "```".data t.data = false → stripCodeBlock t = t) ∧
    (p (stripCodeBlock (pyStrip raw)) = none →
        fetchFromClaude st now iata key (Except.ok raw) p = (Except.ok none, st)) := by
  refine ⟨?_, ?_, ?_, ?_⟩
  · intro h1 h2; simp [stripCodeBlock, h1, h2]
  · intro h1 h2
    have hn : ¬ (splitLines t).length > 2 := by omega
    simp [stripCodeBlock, h1, hn]
  · intro h1; simp [stripCodeBlock, h1]
  · intro hp; by_cases hk : strTruthy key <;> simp [fetchFromClaude, hk, hp]

/-- Claim C7, witness: a three-line fenced reply is stripped to its middle
line. -/
theorem fence_strip_contract_witness :
    stripCodeBlock "```json\nb\n```" =
      joinLines (((splitLines "```json\nb\n```").drop 1).dropLast) :=
  (fence_strip_contract "```json\nb\n```" "" "t" "AAA" st0 none (fun _ => none)).1
    rfl (by decide)

/-- Claim C8, counterexample: the claim says a missing required credential is
fatal at startup and never silently converted into an absent result at
resolve time.  But with no secondary-source API key `_fetch_from_claude`
returns absent (`if not api_key: return None`) with no error, and
`AmadeusClient.__init__` accepts absent primary credentials without any
check — neither is surfaced at startup. -/
theorem missing_key_swallowed :
    fetchFromClaude st0 "t1" "AAA" none (Except.error "never invoked") (fun _ => none)
      = (Except.ok none, st0) ∧
    initAmadeusClient none none =
      { api_key := none, api_secret := none, token := none, token_expires_at := none } :=
  ⟨rfl, rfl⟩

/-- Claim C8, amended: a cache file that is present but corrupt IS fatal at
startup — `_load_data` propagates the JSON error uncaught; but absent
credentials are not startup errors: a missing secondary-source API key is
silently converted into an absent result at resolve time (and primary
credentials are read with no validation, failing only when a tier-2 request
is attempted). -/
theorem config_error_behavior (c now now2 iata : String) (pStore : String → Option Store)
    (st : TMState) (co : Except String String) (p : String → Option ClaudeResult)
    (hbad : pStore c = none) :
    loadData (some c) pStore now = Except.error "JSONDecodeError" ∧
    fetchFromClaude st now2 iata none co p = (Except.ok none, st) := by
  constructor
  · simp [loadData, hbad]
  · rfl

/-- Claim C8, witness: a concrete corrupt file is a load-time error. -/
theorem config_error_behavior_witness :
    loadData (some "not json") (fun _ => none) "t0" = Except.error "JSONDecodeError" :=
  (config_error_behavior "not json" "t0" "t1" "AAA" (fun _ => none) st0
      (Except.error "x") (fun _ => none) rfl).1

/-- Claim C10: frame property of cache writes.  For any key `k` other than
the queried code, both `_fetch_from_amadeus` and `_fetch_from_claude` leave
the record under `k` exactly as it was and leave the store's version tag
unchanged; and the backing file is either untouched (failed lookup) or holds
exactly the updated in-memory store (so every other key's record is rewritten
to it verbatim).  Only the queried code's entry and the store-level
`last_updated` stamp may change. -/
theorem cache_write_frame (st : TMState) (now iata k : String)
    (a : Except String (Option LocationInfo)) (key : Option String)
    (co : Except String String) (p : String → Option ClaudeResult)
    (hk : k ≠ iata) :
    lookupAirport ((fetchFromAmadeus st now iata a).2).data.airports k
        = lookupAirport st.data.airports k ∧
    ((fetchFromAmadeus st now iata a).2).data.version = st.data.version ∧
    (((fetchFromAmadeus st now iata a).2).file = st.file ∨
        ((fetchFromAmadeus st now iata a).2).file
          = some ((fetchFromAmadeus st now iata a).2).data) ∧
    lookupAirport ((fetchFromClaude st now iata key co p).2).data.airports k
        = lookupAirport st.data.airports k ∧
    ((fetchFromClaude st now iata key co p).2).data.version = st.data.version ∧
    (((fetchFromClaude st now iata key co p).2).file = st.file ∨
        ((fetchFromClaude st now iata key co p).2).file
          = some ((fetchFromClaude st now iata key co p).2).data) := by
  have hik : ¬ iata = k := fun h => hk h.symm
  have hA : (fetchFromAmadeus st now iata a).2 = st ∨
      ∃ loc, (fetchFromAmadeus st now iata a).2 =
        saveData { st with data :=
          { st.data with airports := insertAirport st.data.airports iata (amadeusRecord loc now) } } now := by
    rcases a with e | o
    · exact Or.inl rfl
    · rcases o with _ | loc
      · exact Or.inl rfl
      · by_cases hoff : strTruthy loc.timeZoneOffset
        · exact Or.inr ⟨loc, by simp [fetchFromAmadeus, hoff]⟩
        · exact Or.inl (by simp [fetchFromAmadeus, hoff])
  have hB : (fetchFromClaude st now iata key co p).2 = st ∨
      ∃ r, (fetchFromClaude st now iata key co p).2 =
        saveData { st with data :=
          { st.data with airports := insertAirport st.data.airports iata (claudeRecord r now) } } now := by
    by_cases hk2 : strTruthy key
    · rcases co with e | raw
      · exact Or.inl (by simp [fetchFromClaude, hk2])
      · cases hp : p (stripCodeBlock (pyStrip raw)) with
        | none => exact Or.inl (by simp [fetchFromClaude, hk2, hp])
        | some r => exact Or.inr ⟨r, by simp [fetchFromClaude, hk2, hp]⟩
    · exact Or.inl (by simp [fetchFromClaude, hk2])
  refine ⟨?_, ?_, ?_, ?_, ?_, ?_⟩
  · rcases hA with hA | ⟨loc, hA⟩ <;>
      simp [hA, saveData, lookupAirport_insertAirport, hik]
  · rcases hA with hA | ⟨loc, hA⟩ <;> simp [hA, saveData]
  · rcases hA with hA | ⟨loc, hA⟩
    · exact Or.inl (by simp [hA])
    · exact Or.inr (by simp [hA, saveData])
  · rcases hB with hB | ⟨r, hB⟩ <;>
      simp [hB, saveData, lookupAirport_insertAirport, hik]
  · rcases hB with hB | ⟨r, hB⟩ <;> simp [hB, saveData]
  · rcases hB with hB | ⟨r, hB⟩
    · exact Or.inl (by simp [hB])
    · exact Or.inr (by simp [hB, saveData])

/-- Claim C10, witness: a successful amadeus store of "AAA" leaves the "NRT"
record untouched. -/
theorem cache_write_frame_witness :
    lookupAirport
        ((fetchFromAmadeus stNRT "t1" "AAA" (Except.ok (some locTokyo))).2).data.airports "NRT"
      = some recNRT := by
  have h := (cache_write_frame stNRT "t1" "AAA" "NRT" (Except.ok (some locTokyo)) (some "k")
      (Except.ok "resp") parseNoOffset (by decide)).1
  rw [h]
  rfl
